import Mathlib

/-
Verification of the Newsreader device firmware's listing/navigation state
machines against the design document.

Embedded components:

* `NewsSyncActivity` (news-feed sync screen): translated directly from the
  C++ source (`NewsSyncActivity.cpp` / `.h`).  Its `loop` handles input per
  state, `startSync` fetches and parses the configured OPDS feed, and
  `downloadEntry` downloads the selected entry to `/News`.

* `OpdsBookBrowserActivity` (remote-catalog browser): translated directly
  from `OpdsBookBrowserActivity.cpp`, which is embedded in `src/README.md`
  after the document separator.  Its `loop` dispatches input per state
  (LOADING also accepts Back), `fetchFeed` overwrites the entry list and
  resets the selector to 0, the navigation history stores paths only, and
  the held page-jump arithmetic mixes `int` with the 32-bit unsigned
  `size_t`, which is modelled with explicit mod-2^32 reductions.

Side effects on storage and network are modelled by an explicit `World`
record threaded through the operations: it logs feed fetches, file
downloads, created files/directories and cache invalidations (`clearCache`).
External helper routines that live outside the embedded sources
(`StringUtils::sanitizeFilename`) are taken as parameters.
-/

/-- Kind tag of a catalog entry (the browser source's `OpdsEntryType`):
a CONTAINER entry (`OpdsEntryType::NAVIGATION`) opens a child listing, a
BOOK (leaf) entry is directly downloadable. -/
inductive EntryKind where
  | CONTAINER
  | BOOK
deriving DecidableEq, Repr, Inhabited

/-- Catalog feed entry shape (design doc section 6): title, optional author
(empty string when absent), a fetch href and an optional pre-rendered
variant href (`hrefXtc`, preferred when non-empty), tagged
navigation-vs-leaf. -/
structure OpdsEntry where
  kind : EntryKind
  title : String
  author : String
  href : String
  hrefXtc : String
deriving DecidableEq, Repr, Inhabited

/-- Kind of on-disk cache folder touched by `clearCache`: the Xtc cache for
pre-rendered files, the Epub cache otherwise. -/
inductive CacheKind where
  | Xtc
  | Epub
deriving DecidableEq, Repr, Inhabited

/-- Observable storage/network effects of a run, threaded explicitly through
the embedded operations: existing file paths, created directories, the log of
`clearCache` invalidations, the log of `downloadToFile` destinations, and the
log of feed paths passed to `fetchUrl`. -/
structure World where
  files : List String
  dirs : List String
  clearedCaches : List (String × CacheKind)
  downloads : List String
  fetches : List String
deriving DecidableEq, Repr, Inhabited

/-- File-extension test used to pick the download extension and the cache
kind; stands in for `StringUtils::checkFileExtension` (helper outside the
embedded sources), modelled as a suffix test. -/
def checkFileExtension (path ext : String) : Bool :=
  List.isSuffixOf ext.data path.data

/-- Cache kind matching a file path's extension: `.xtch`/`.xtc` files use the
Xtc cache, everything else the Epub cache (mirrors the dispatch in
`NewsSyncActivity::downloadEntry`). -/
def cacheKindOf (path : String) : CacheKind :=
  if checkFileExtension path ".xtch" || checkFileExtension path ".xtc" then CacheKind.Xtc
  else CacheKind.Epub

/-- States of `NewsSyncActivity` (enum `SyncState` in the source). -/
inductive SyncState where
  | CHECK_WIFI
  | WIFI_SELECTION
  | FETCHING_FEED
  | SELECT_SOURCE
  | DOWNLOADING
  | COMPLETE
  | ERROR
deriving DecidableEq, Repr, Inhabited

/-- Mutable fields of `NewsSyncActivity` relevant to its state machine.  The
C++ `selectorIndex` is an `int`; every reachable value is non-negative (it
starts at 0 and is only ever assigned results of `% entries.size()` with
non-negative arguments), so it is embedded as a `Nat`. -/
structure NewsSyncSt where
  state : SyncState
  statusMessage : String
  errorMessage : String
  downloadProgress : Nat
  downloadTotal : Nat
  entries : List OpdsEntry
  selectorIndex : Nat
deriving DecidableEq, Repr, Inhabited

/-- Environment of one news-sync run: connectivity, the configured server URL
and feed path settings, whether the HTTP fetch and the feed parse succeed,
and the entry list the parser yields. -/
structure NewsEnv where
  wifiOk : Bool
  serverUrl : String
  newsPath : String
  fetchOk : Bool
  parseOk : Bool
  books : List OpdsEntry
deriving Inhabited

/-- Translation of `NewsSyncActivity::setError`. -/
def NewsSyncSt.setError (st : NewsSyncSt) (message : String) : NewsSyncSt :=
  { st with state := SyncState.ERROR, errorMessage := message }

/-- State of `NewsSyncActivity` right after `onEnter` reset its fields
(before `checkAndConnectWifi` runs). -/
def newsInit : NewsSyncSt :=
  { state := SyncState.CHECK_WIFI
    statusMessage := "Checking WiFi..."
    errorMessage := ""
    downloadProgress := 0
    downloadTotal := 0
    entries := []
    selectorIndex := 0 }

/-- Download href chosen by `NewsSyncActivity::downloadEntry`: the
pre-rendered variant `hrefXtc` when present, else `href`. -/
def newsDownloadHref (entry : OpdsEntry) : String :=
  if entry.hrefXtc ≠ "" then entry.hrefXtc else entry.href

/-- Destination path computed by `NewsSyncActivity::downloadEntry`:
`/News/<sanitized title[- author]><extension>` with the extension taken from
the download href.  `sanitize` stands for `StringUtils::sanitizeFilename`. -/
def newsDestPath (sanitize : String → String) (entry : OpdsEntry) : String :=
  let baseName := if entry.author ≠ "" then entry.title ++ " - " ++ entry.author else entry.title
  let safeName0 := sanitize baseName
  let safeName := if safeName0 = "" then "news" else safeName0
  let extension :=
    if checkFileExtension (newsDownloadHref entry) ".xtch" then ".xtch"
    else if checkFileExtension (newsDownloadHref entry) ".xtc" then ".xtc"
    else ".epub"
  "/News/" ++ safeName ++ extension

/-- Effect of `SdMan.mkdir` on the world: records the directory. -/
def World.mkdir (w : World) (d : String) : World :=
  if d ∈ w.dirs then w else { w with dirs := d :: w.dirs }

/-- Translation of `NewsSyncActivity::downloadEntry`.  `dlOk` is the outcome
of `HttpDownloader::downloadToFile`; on success the downloader has written
the destination file, and the activity invalidates any stale cache folder
for that path (`Xtc::clearCache` or `Epub::clearCache` by extension). -/
def downloadEntry (sanitize : String → String) (dlOk : Bool) (entry : OpdsEntry)
    (st : NewsSyncSt) (w : World) : NewsSyncSt × World :=
  if newsDownloadHref entry = "" then (st.setError "No download link", w)
  else
    let w := w.mkdir "/News"
    let destPath := newsDestPath sanitize entry
    if destPath ∈ w.files then
      ({ st with state := SyncState.COMPLETE, statusMessage := "Already downloaded" }, w)
    else
      let st := { st with
        state := SyncState.DOWNLOADING
        statusMessage := if entry.title = "" then "Downloading..." else entry.title
        downloadProgress := 0
        downloadTotal := 0 }
      let w := { w with downloads := destPath :: w.downloads }
      if dlOk then
        ({ st with state := SyncState.COMPLETE, statusMessage := "Download complete" },
         { w with
            files := destPath :: w.files
            clearedCaches := (destPath, cacheKindOf destPath) :: w.clearedCaches })
      else (st.setError "Download failed", w)

/-- Translation of `NewsSyncActivity::startSync`: checks the two settings,
fetches and parses the configured feed, and either errors out or enters
SELECT_SOURCE on a non-empty entry list with the selector reset to 0. -/
def startSync (env : NewsEnv) (st : NewsSyncSt) (w : World) : NewsSyncSt × World :=
  if env.serverUrl = "" then (st.setError "Calibre Web URL not set", w)
  else if env.newsPath = "" then (st.setError "News Feed Path not set", w)
  else
    let st := { st with state := SyncState.FETCHING_FEED, statusMessage := "Fetching feed..." }
    let w := { w with fetches := env.newsPath :: w.fetches }
    if ¬ env.fetchOk then (st.setError "Failed to fetch feed", w)
    else if ¬ env.parseOk then (st.setError "Failed to parse feed", w)
    else if env.books = [] then (st.setError "No books in feed", w)
    else
      ({ st with
          entries := env.books
          selectorIndex := 0
          state := SyncState.SELECT_SOURCE
          statusMessage := "Select source" }, w)

/-- Translation of `NewsSyncActivity::checkAndConnectWifi`: with a live
connection (`WL_CONNECTED` and a non-zero IP) it starts the sync, otherwise
it launches the WiFi selection sub-activity. -/
def checkAndConnectWifi (env : NewsEnv) (st : NewsSyncSt) (w : World) : NewsSyncSt × World :=
  if env.wifiOk then startSync env st w
  else ({ st with state := SyncState.WIFI_SELECTION }, w)

/-- Translation of `NewsSyncActivity::onWifiSelectionComplete`. -/
def onWifiSelectionComplete (env : NewsEnv) (connected : Bool) (st : NewsSyncSt)
    (w : World) : NewsSyncSt × World :=
  if connected then startSync env st w
  else (st.setError "WiFi connection failed", w)

/-- Buttons reported as pressed by `MappedInputManager` during one `loop`
iteration. -/
structure Pressed where
  up : Bool
  down : Bool
  left : Bool
  right : Bool
  confirm : Bool
  back : Bool
deriving DecidableEq, Repr, Inhabited

/-- Translation of `NewsSyncActivity::loop` (the input thread step, with no
sub-activity active).  The third component records whether `onGoHome` was
invoked (the screen exits). -/
def newsLoop (sanitize : String → String) (dlOk : Bool) (p : Pressed)
    (st : NewsSyncSt) (w : World) : NewsSyncSt × World × Bool :=
  if st.state = SyncState.CHECK_WIFI then
    if p.back then (st, w, true) else (st, w, false)
  else if st.state = SyncState.ERROR ∨ st.state = SyncState.COMPLETE then
    if p.back then (st, w, true)
    else if p.confirm then
      if st.entries ≠ [] then
        ({ st with state := SyncState.SELECT_SOURCE }, w, false)
      else (st, w, true)
    else (st, w, false)
  else if st.state = SyncState.SELECT_SOURCE then
    let prevPressed := p.up || p.left
    let nextPressed := p.down || p.right
    if p.back then (st, w, true)
    else if p.confirm then
      if st.entries ≠ [] then
        let r := downloadEntry sanitize dlOk (st.entries.getD st.selectorIndex default) st w
        (r.1, r.2, false)
      else (st, w, false)
    else if prevPressed ∧ st.entries ≠ [] then
      ({ st with selectorIndex := (st.selectorIndex + st.entries.length - 1) % st.entries.length },
       w, false)
    else if nextPressed ∧ st.entries ≠ [] then
      ({ st with selectorIndex := (st.selectorIndex + 1) % st.entries.length }, w, false)
    else (st, w, false)
  else (st, w, false)

/-- News-sync states reachable from screen entry under a fixed environment:
`onEnter` runs `checkAndConnectWifi`, WiFi selection may complete, and the
input loop steps any number of times (with arbitrary download outcomes and
storage contents). -/
inductive NewsReach (env : NewsEnv) (sanitize : String → String) : NewsSyncSt → Prop where
  | enter : ∀ w, NewsReach env sanitize (checkAndConnectWifi env newsInit w).1
  | wifiDone : ∀ st w connected, NewsReach env sanitize st →
      st.state = SyncState.WIFI_SELECTION →
      NewsReach env sanitize (onWifiSelectionComplete env connected st w).1
  | step : ∀ st w dlOk p, NewsReach env sanitize st →
      NewsReach env sanitize (newsLoop sanitize dlOk p st w).1

/-- Selector invariant of the news-sync activity: the selector is in range
whenever the entry list is non-empty, and the source-selection state is only
entered with a non-empty entry list. -/
def NewsInv (st : NewsSyncSt) : Prop :=
  (st.entries ≠ [] → st.selectorIndex < st.entries.length) ∧
  (st.state = SyncState.SELECT_SOURCE → st.entries ≠ [])

theorem downloadEntry_frame (sanitize : String → String) (dlOk : Bool)
    (entry : OpdsEntry) (st : NewsSyncSt) (w : World) :
    (downloadEntry sanitize dlOk entry st w).1.entries = st.entries ∧
    (downloadEntry sanitize dlOk entry st w).1.selectorIndex = st.selectorIndex ∧
    (downloadEntry sanitize dlOk entry st w).1.state ≠ SyncState.SELECT_SOURCE := by
  simp only [downloadEntry, NewsSyncSt.setError]
  split_ifs <;> simp

theorem startSync_inv (env : NewsEnv) (st : NewsSyncSt) (w : World) (h : NewsInv st) :
    NewsInv (startSync env st w).1 := by
  unfold startSync NewsSyncSt.setError NewsInv at *
  split_ifs <;> simp_all [List.length_pos]

theorem checkAndConnectWifi_inv (env : NewsEnv) (st : NewsSyncSt) (w : World)
    (h : NewsInv st) : NewsInv (checkAndConnectWifi env st w).1 := by
  unfold checkAndConnectWifi
  split_ifs with hw
  · exact startSync_inv env st w h
  · unfold NewsInv at *; simp_all

theorem onWifiSelectionComplete_inv (env : NewsEnv) (connected : Bool) (st : NewsSyncSt)
    (w : World) (h : NewsInv st) : NewsInv (onWifiSelectionComplete env connected st w).1 := by
  unfold onWifiSelectionComplete
  split_ifs with hc
  · exact startSync_inv env st w h
  · unfold NewsInv NewsSyncSt.setError at *; simp_all

theorem newsLoop_inv (sanitize : String → String) (dlOk : Bool) (p : Pressed)
    (st : NewsSyncSt) (w : World) (h : NewsInv st) : NewsInv (newsLoop sanitize dlOk p st w).1 := by
  obtain ⟨h1, h2⟩ := h
  have hd := downloadEntry_frame sanitize dlOk
    (st.entries.getD st.selectorIndex default) st w
  simp only [newsLoop]
  split_ifs <;>
    first
      | exact ⟨h1, h2⟩
      | exact ⟨fun hne => by
            rw [hd.1, hd.2.1]; exact h1 (hd.1 ▸ hne),
          fun hs => absurd hs hd.2.2⟩
      | (rename_i hcond
         exact ⟨fun _ => Nat.mod_lt _ (List.length_pos.mpr hcond.2), fun _ => hcond.2⟩)
      | (rename_i hne
         exact ⟨h1, fun _ => hne⟩)

theorem newsReach_inv (env : NewsEnv) (sanitize : String → String) (st : NewsSyncSt)
    (h : NewsReach env sanitize st) : NewsInv st := by
  induction h with
  | enter w => exact checkAndConnectWifi_inv env newsInit w (by unfold NewsInv newsInit; simp)
  | wifiDone st w connected _ _ ih => exact onWifiSelectionComplete_inv env connected st w ih
  | step st w dlOk p _ ih => exact newsLoop_inv sanitize dlOk p st w ih

/-- Positivity of a non-empty list's length, cast to `Int`. -/
theorem natCast_len_pos {α : Type} (l : List α) (h : l ≠ []) :
    (0 : Int) < (l.length : Int) := by
  exact_mod_cast List.length_pos.mpr h

/-- States of `OpdsBookBrowserActivity` (enum `BrowserState` in its source,
embedded in `src/README.md`). -/
inductive BrowserState where
  | CHECK_WIFI
  | WIFI_SELECTION
  | LOADING
  | BROWSING
  | DOWNLOADING
  | ERROR
deriving DecidableEq, Repr, Inhabited

/-- Mutable fields of `OpdsBookBrowserActivity`.  `navigationHistory` is a
`std::vector<std::string>` of paths only (no selection is saved); push_back,
back() and pop_back give stack behavior, so the vector's back is the list
head here.  `selectorIndex` is a C++ `int`, embedded as `Int`.  The progress
counters are reset at download start; the transfer callback's intermediate
updates are display-only and elided. -/
structure BrowserSt where
  state : BrowserState
  currentPath : String
  navHistory : List String
  entries : List OpdsEntry
  selectorIndex : Int
  errorMessage : String
  statusMessage : String
  downloadProgress : Nat
  downloadTotal : Nat
deriving DecidableEq, Repr, Inhabited

/-- Environment of a browser run: the connectivity prerequisite
(`WL_CONNECTED` with a valid IP), the configured `opdsServerUrl` setting,
whether HTTP fetches and feed parses succeed, and the feed contents per
listing path. -/
structure OpdsEnv where
  wifiOk : Bool
  serverUrl : String
  fetchOk : Bool
  parseOk : Bool
  books : String → List OpdsEntry
deriving Inhabited

/-- Items per listing screen (`PAGE_ITEMS` in the source); a held movement
press jumps by this many rows. -/
def PAGE_ITEMS : Int := 23

/-- Modulus of the 32-bit unsigned `size_t` of the target (ESP32-C3).  C++
converts the `int` selector expressions to `size_t` wherever the source
mixes them with `entries.size()`, so those intermediates reduce modulo
2^32. -/
def SIZE_T_MOD : Int := 4294967296

/-- Translation of `OpdsBookBrowserActivity::fetchFeed` (src/README.md);
every call site passes `currentPath`, so the model reads the path from the
state.  Any failure (no server URL configured, HTTP fetch failure, parse
failure, empty entry list) enters `Error`.  On the parse-success path the
entry list is overwritten with the fetched entries and the selector is reset
to 0 before the empty check; a non-empty list enters `Browsing`.  The
current path and the history stack are never modified here. -/
def fetchFeed (env : OpdsEnv) (st : BrowserSt) (w : World) : BrowserSt × World :=
  if env.serverUrl = "" then
    ({ st with state := BrowserState.ERROR, errorMessage := "No server URL configured" }, w)
  else
    let w := { w with fetches := st.currentPath :: w.fetches }
    if ¬ env.fetchOk then
      ({ st with state := BrowserState.ERROR, errorMessage := "Failed to fetch feed" }, w)
    else if ¬ env.parseOk then
      ({ st with state := BrowserState.ERROR, errorMessage := "Failed to parse feed" }, w)
    else
      let st := { st with entries := env.books st.currentPath, selectorIndex := 0 }
      if st.entries = [] then
        ({ st with state := BrowserState.ERROR, errorMessage := "No entries found" }, w)
      else ({ st with state := BrowserState.BROWSING }, w)

/-- Translation of `OpdsBookBrowserActivity::navigateToEntry`: pushes the
current path onto the history, makes the entry's href current, enters
`Loading` with the listing cleared and the selector reset to 0, and fetches
the child feed. -/
def navigateToEntry (env : OpdsEnv) (entry : OpdsEntry) (st : BrowserSt)
    (w : World) : BrowserSt × World :=
  fetchFeed env
    { st with
      navHistory := st.currentPath :: st.navHistory
      currentPath := entry.href
      state := BrowserState.LOADING
      statusMessage := "Loading..."
      entries := []
      selectorIndex := 0 } w

/-- Translation of `OpdsBookBrowserActivity::navigateBack`: with an empty
history it invokes the go-home callback (the Bool component) and performs no
fetch; otherwise it pops the most recent path, makes it current, enters
`Loading` with the listing cleared and the selector reset to 0 (the previous
selection is not saved anywhere), and re-fetches that feed. -/
def navigateBack (env : OpdsEnv) (st : BrowserSt) (w : World) : BrowserSt × World × Bool :=
  match st.navHistory with
  | [] => (st, w, true)
  | p :: rest =>
      let r := fetchFeed env
        { st with
          currentPath := p
          navHistory := rest
          state := BrowserState.LOADING
          statusMessage := "Loading..."
          entries := []
          selectorIndex := 0 } w
      (r.1, r.2, false)

/-- Download href preferred by `OpdsBookBrowserActivity::downloadBook`: the
pre-rendered `hrefXtc` variant when non-empty, else `href`. -/
def opdsDownloadHref (book : OpdsEntry) : String :=
  if book.hrefXtc ≠ "" then book.hrefXtc else book.href

/-- Extension chosen by `downloadBook` from the download href. -/
def opdsExtension (book : OpdsEntry) : String :=
  if checkFileExtension (opdsDownloadHref book) ".xtch" then ".xtch"
  else if checkFileExtension (opdsDownloadHref book) ".xtc" then ".xtc"
  else ".epub"

/-- Destination filename of `downloadBook`:
`"/" + sanitizeFilename("Title[- Author]") + extension`, at the SD root
(`sanitize` stands for `StringUtils::sanitizeFilename`). -/
def opdsFilename (sanitize : String → String) (book : OpdsEntry) : String :=
  let baseName := if book.author ≠ "" then book.title ++ " - " ++ book.author else book.title
  "/" ++ sanitize baseName ++ opdsExtension book

/-- Cache invalidated on success by `downloadBook`: the Xtc cache when the
chosen extension is `.xtch`/`.xtc`, else the Epub cache. -/
def opdsCacheKind (book : OpdsEntry) : CacheKind :=
  if opdsExtension book = ".xtch" ∨ opdsExtension book = ".xtc" then CacheKind.Xtc
  else CacheKind.Epub

/-- First half of `OpdsBookBrowserActivity::downloadBook`: enter
`Downloading` with the book title as status and the progress counters
reset. -/
def startDownload (book : OpdsEntry) (st : BrowserSt) : BrowserSt :=
  { st with
    state := BrowserState.DOWNLOADING
    statusMessage := book.title
    downloadProgress := 0
    downloadTotal := 0 }

/-- Second half of `downloadBook`: the outcome of
`HttpDownloader::downloadToFile`.  On success the downloader has written
`filename` and the activity clears the matching cache folder before
returning to `Browsing`; on failure it enters `Error`. -/
def finishDownload (dlOk : Bool) (filename : String) (kind : CacheKind)
    (st : BrowserSt) (w : World) : BrowserSt × World :=
  let w := { w with downloads := filename :: w.downloads }
  if dlOk then
    ({ st with state := BrowserState.BROWSING },
     { w with
        files := filename :: w.files
        clearedCaches := (filename, kind) :: w.clearedCaches })
  else ({ st with state := BrowserState.ERROR, errorMessage := "Download failed" }, w)

/-- Translation of `OpdsBookBrowserActivity::downloadBook` (no href guard
exists in this activity, unlike the news sync). -/
def downloadBook (sanitize : String → String) (dlOk : Bool) (book : OpdsEntry)
    (st : BrowserSt) (w : World) : BrowserSt × World :=
  finishDownload dlOk (opdsFilename sanitize book) (opdsCacheKind book)
    (startDownload book st) w

/-- Short backward step,
`(selectorIndex + entries.size() - 1) % entries.size()`: the `int` selector
is converted to the 32-bit unsigned `size_t`, so every intermediate reduces
modulo 2^32 and the subtraction wraps at 0. -/
def prevSel (s : Int) (len : Nat) : Int :=
  ((s % SIZE_T_MOD + (len : Int)) % SIZE_T_MOD - 1) % SIZE_T_MOD % (len : Int)

/-- Short forward step, `(selectorIndex + 1) % entries.size()`: the `int`
sum is converted to `size_t` for the modulo. -/
def nextSel (s : Int) (len : Nat) : Int :=
  (s + 1) % SIZE_T_MOD % (len : Int)

/-- Held backward jump,
`((selectorIndex / PAGE_ITEMS - 1) * PAGE_ITEMS + entries.size()) % entries.size()`:
the `int` page expression (C++ `/` truncates toward zero, `Int.tdiv` here) is
converted to `size_t` before the addition, so a negative page start wraps
modulo 2^32 rather than mathematically. -/
def heldPrevSel (s : Int) (len : Nat) : Int :=
  ((s.tdiv PAGE_ITEMS - 1) * PAGE_ITEMS % SIZE_T_MOD + (len : Int)) % SIZE_T_MOD % (len : Int)

/-- Held forward jump,
`((selectorIndex / PAGE_ITEMS + 1) * PAGE_ITEMS) % entries.size()`. -/
def heldNextSel (s : Int) (len : Nat) : Int :=
  (s.tdiv PAGE_ITEMS + 1) * PAGE_ITEMS % SIZE_T_MOD % (len : Int)

/-- Entry currently under the selector (`entries[selectorIndex]`; in range
on every reachable Browsing state). -/
def selEntry (st : BrowserSt) : OpdsEntry :=
  st.entries.getD st.selectorIndex.toNat default

/-- Input of one browser `loop` iteration: the released buttons plus whether
the press was held past `SKIP_PAGE_MS` (the page-jump fast path). -/
structure BrowserInput where
  back : Bool
  confirm : Bool
  next : Bool
  prev : Bool
  held : Bool
deriving DecidableEq, Repr, Inhabited

/-- Translation of `OpdsBookBrowserActivity::loop` (one input-thread step;
the WiFi-selection state delegates to the sub-activity).  State dispatch and
in-state priorities follow the source: `ERROR` handles Confirm (retry after
re-checking WiFi) then Back (`navigateBack`); `CHECK_WIFI` accepts only Back
(go home); `LOADING` accepts only Back (`navigateBack`); `DOWNLOADING`
ignores all input; `BROWSING` handles Confirm, then Back, then a backward
move, then a forward move, held moves jumping by a page.  The Bool component
records whether the go-home callback ran. -/
def opdsLoop (env : OpdsEnv) (sanitize : String → String) (dlOk : Bool)
    (inp : BrowserInput) (st : BrowserSt) (w : World) : BrowserSt × World × Bool :=
  if st.state = BrowserState.WIFI_SELECTION then (st, w, false)
  else if st.state = BrowserState.ERROR then
    if inp.confirm then
      if env.wifiOk then
        let r := fetchFeed env
          { st with state := BrowserState.LOADING, statusMessage := "Loading..." } w
        (r.1, r.2, false)
      else ({ st with state := BrowserState.WIFI_SELECTION }, w, false)
    else if inp.back then navigateBack env st w
    else (st, w, false)
  else if st.state = BrowserState.CHECK_WIFI then
    if inp.back then (st, w, true) else (st, w, false)
  else if st.state = BrowserState.LOADING then
    if inp.back then navigateBack env st w else (st, w, false)
  else if st.state = BrowserState.DOWNLOADING then (st, w, false)
  else if st.state = BrowserState.BROWSING then
    if inp.confirm then
      if st.entries ≠ [] then
        if (selEntry st).kind = EntryKind.BOOK then
          let r := downloadBook sanitize dlOk (selEntry st) st w
          (r.1, r.2, false)
        else
          let r := navigateToEntry env (selEntry st) st w
          (r.1, r.2, false)
      else (st, w, false)
    else if inp.back then navigateBack env st w
    else if inp.prev ∧ st.entries ≠ [] then
      ({ st with
          selectorIndex :=
            if inp.held then heldPrevSel st.selectorIndex st.entries.length
            else prevSel st.selectorIndex st.entries.length }, w, false)
    else if inp.next ∧ st.entries ≠ [] then
      ({ st with
          selectorIndex :=
            if inp.held then heldNextSel st.selectorIndex st.entries.length
            else nextSel st.selectorIndex st.entries.length }, w, false)
    else (st, w, false)
  else (st, w, false)

/-- Translation of `OpdsBookBrowserActivity::onEnter`'s field reset (the
state right before `checkAndConnectWifi` runs); the catalog root is the
constant `OPDS_ROOT_PATH` = "opds". -/
def opdsInit : BrowserSt :=
  { state := BrowserState.CHECK_WIFI
    currentPath := "opds"
    navHistory := []
    entries := []
    selectorIndex := 0
    errorMessage := ""
    statusMessage := "Checking WiFi..."
    downloadProgress := 0
    downloadTotal := 0 }

/-- Translation of `OpdsBookBrowserActivity::checkAndConnectWifi`: with a
live connection it enters `Loading` and fetches the current feed, otherwise
it launches the WiFi-selection sub-screen. -/
def opdsCheckWifi (env : OpdsEnv) (st : BrowserSt) (w : World) : BrowserSt × World :=
  if env.wifiOk then
    fetchFeed env { st with state := BrowserState.LOADING, statusMessage := "Loading..." } w
  else ({ st with state := BrowserState.WIFI_SELECTION }, w)

/-- Translation of `OpdsBookBrowserActivity::onWifiSelectionComplete`. -/
def opdsWifiDone (env : OpdsEnv) (connected : Bool) (st : BrowserSt)
    (w : World) : BrowserSt × World :=
  if connected then
    fetchFeed env { st with state := BrowserState.LOADING, statusMessage := "Loading..." } w
  else ({ st with state := BrowserState.ERROR, errorMessage := "WiFi connection failed" }, w)

/-- Browser states reachable from screen entry under a fixed environment:
the entry-time prerequisite check, WiFi-selection completion, and any number
of input-loop steps (with arbitrary download outcomes and storage
contents). -/
inductive OpdsReach (env : OpdsEnv) (sanitize : String → String) : BrowserSt → Prop where
  | init : ∀ w, OpdsReach env sanitize (opdsCheckWifi env opdsInit w).1
  | wifiDone : ∀ st w connected, OpdsReach env sanitize st →
      st.state = BrowserState.WIFI_SELECTION →
      OpdsReach env sanitize (opdsWifiDone env connected st w).1
  | step : ∀ st w dlOk inp, OpdsReach env sanitize st →
      OpdsReach env sanitize (opdsLoop env sanitize dlOk inp st w).1

/-- Inductive invariant of the browser under a fixed environment: a
Browsing state always holds the (non-empty) feed of its current path with
the selector inside [0, entries.length). -/
def OpdsInv (env : OpdsEnv) (st : BrowserSt) : Prop :=
  st.state = BrowserState.BROWSING →
    st.entries = env.books st.currentPath ∧ st.entries ≠ [] ∧
    0 ≤ st.selectorIndex ∧ st.selectorIndex < (st.entries.length : Int)

theorem fetchFeed_inv (env : OpdsEnv) (st : BrowserSt) (w : World) :
    OpdsInv env (fetchFeed env st w).1 := by
  simp only [fetchFeed]
  split_ifs <;> intro hb <;>
    first
      | (rename_i hne
         exact ⟨rfl, hne, le_refl 0, natCast_len_pos _ hne⟩)
      | exact absurd hb (by simp)

theorem navigateToEntry_inv (env : OpdsEnv) (entry : OpdsEntry) (st : BrowserSt)
    (w : World) : OpdsInv env (navigateToEntry env entry st w).1 :=
  fetchFeed_inv env _ w

theorem navigateBack_inv (env : OpdsEnv) (st : BrowserSt) (w : World)
    (h : OpdsInv env st) : OpdsInv env (navigateBack env st w).1 := by
  rcases hnav : st.navHistory with _ | ⟨p, rest⟩
  · simp only [navigateBack, hnav]
    exact h
  · simp only [navigateBack, hnav]
    exact fetchFeed_inv env _ w

theorem downloadBook_inv (env : OpdsEnv) (sanitize : String → String) (dlOk : Bool)
    (book : OpdsEntry) (st : BrowserSt) (w : World) (h : OpdsInv env st)
    (hst : st.state = BrowserState.BROWSING) :
    OpdsInv env (downloadBook sanitize dlOk book st w).1 := by
  obtain ⟨he, hne, h0, hlt⟩ := h hst
  simp only [downloadBook, finishDownload, startDownload]
  split_ifs with hdl <;> intro hb
  · exact ⟨he, hne, h0, hlt⟩
  · exact absurd hb (by simp)

theorem selMoves_bound (s : Int) (len : Nat) (h : len ≠ 0) :
    (0 ≤ prevSel s len ∧ prevSel s len < (len : Int)) ∧
    (0 ≤ nextSel s len ∧ nextSel s len < (len : Int)) ∧
    (0 ≤ heldPrevSel s len ∧ heldPrevSel s len < (len : Int)) ∧
    (0 ≤ heldNextSel s len ∧ heldNextSel s len < (len : Int)) := by
  have hpos : (0 : Int) < (len : Int) := by exact_mod_cast Nat.pos_of_ne_zero h
  unfold prevSel nextSel heldPrevSel heldNextSel
  refine ⟨⟨?_, ?_⟩, ⟨?_, ?_⟩, ⟨?_, ?_⟩, ⟨?_, ?_⟩⟩ <;>
    first
      | exact Int.emod_nonneg _ (ne_of_gt hpos)
      | exact Int.emod_lt_of_pos _ hpos

theorem opdsLoop_inv (env : OpdsEnv) (sanitize : String → String) (dlOk : Bool)
    (inp : BrowserInput) (st : BrowserSt) (w : World) (h : OpdsInv env st) :
    OpdsInv env (opdsLoop env sanitize dlOk inp st w).1 := by
  cases hst : st.state with
  | WIFI_SELECTION => simp [opdsLoop, hst]; exact h
  | CHECK_WIFI =>
      simp [opdsLoop, hst]
      split_ifs <;> exact h
  | DOWNLOADING => simp [opdsLoop, hst]; exact h
  | LOADING =>
      simp [opdsLoop, hst]
      split_ifs
      · exact navigateBack_inv env st w h
      · exact h
  | ERROR =>
      simp [opdsLoop, hst]
      split_ifs <;>
        first
          | exact h
          | exact navigateBack_inv env st w h
          | exact fetchFeed_inv env _ w
          | (intro hb; exact absurd hb (by simp))
  | BROWSING =>
      obtain ⟨he, hne, h0, hlt⟩ := h hst
      have hlen0 : st.entries.length ≠ 0 := fun hz => hne (List.length_eq_zero.mp hz)
      obtain ⟨hbP, hbN, hbHP, hbHN⟩ := selMoves_bound st.selectorIndex st.entries.length hlen0
      simp [opdsLoop, hst]
      split_ifs <;>
        first
          | exact h
          | exact navigateBack_inv env st w h
          | exact downloadBook_inv env sanitize dlOk _ st w h hst
          | exact navigateToEntry_inv env _ st w
          | exact fun _ => ⟨he, hne, hbP.1, hbP.2⟩
          | exact fun _ => ⟨he, hne, hbN.1, hbN.2⟩
          | exact fun _ => ⟨he, hne, hbHP.1, hbHP.2⟩
          | exact fun _ => ⟨he, hne, hbHN.1, hbHN.2⟩

theorem opdsCheckWifi_inv (env : OpdsEnv) (st : BrowserSt) (w : World) :
    OpdsInv env (opdsCheckWifi env st w).1 := by
  simp only [opdsCheckWifi]
  split_ifs with hw
  · exact fetchFeed_inv env _ w
  · intro hb; exact absurd hb (by simp)

theorem opdsWifiDone_inv (env : OpdsEnv) (connected : Bool) (st : BrowserSt)
    (w : World) : OpdsInv env (opdsWifiDone env connected st w).1 := by
  simp only [opdsWifiDone]
  split_ifs with hc
  · exact fetchFeed_inv env _ w
  · intro hb; exact absurd hb (by simp)

theorem opdsReach_inv (env : OpdsEnv) (sanitize : String → String)
    (st : BrowserSt) (h : OpdsReach env sanitize st) : OpdsInv env st := by
  induction h with
  | init w => exact opdsCheckWifi_inv env opdsInit w
  | wifiDone st w connected _ _ _ => exact opdsWifiDone_inv env connected st w
  | step st w dlOk inp _ ih => exact opdsLoop_inv env sanitize dlOk inp st w ih

theorem fetchFeed_frame (env : OpdsEnv) (st : BrowserSt) (w : World) :
    (fetchFeed env st w).1.currentPath = st.currentPath ∧
    (fetchFeed env st w).1.navHistory = st.navHistory := by
  simp only [fetchFeed]
  split_ifs <;> simp

/-- Confirm press (select the current entry). -/
def confirmInput : BrowserInput :=
  { back := false, confirm := true, next := false, prev := false, held := false }

/-- Back press. -/
def backInput : BrowserInput :=
  { back := true, confirm := false, next := false, prev := false, held := false }

/-- Short forward movement press. -/
def nextInput : BrowserInput :=
  { back := false, confirm := false, next := true, prev := false, held := false }

/-- Short backward movement press. -/
def prevInput : BrowserInput :=
  { back := false, confirm := false, next := false, prev := true, held := false }

/-- State component of one browser loop step.  The download callbacks are
irrelevant for the navigation actions this abbreviation is used with
(container selection and back never download). -/
def opdsStep (env : OpdsEnv) (inp : BrowserInput) (st : BrowserSt) : BrowserSt :=
  (opdsLoop env (fun s => s) true inp st default).1

/-- One confirm press on the browser. -/
def doConfirm (env : OpdsEnv) (st : BrowserSt) : BrowserSt :=
  opdsStep env confirmInput st

/-- One back press on the browser. -/
def doBack (env : OpdsEnv) (st : BrowserSt) : BrowserSt :=
  opdsStep env backInput st

/-- K successive confirm presses. -/
def confirmN (env : OpdsEnv) : Nat → BrowserSt → BrowserSt
  | 0, st => st
  | k + 1, st => confirmN env k (doConfirm env st)

/-- K successive back presses. -/
def backN (env : OpdsEnv) : Nat → BrowserSt → BrowserSt
  | 0, st => st
  | k + 1, st => doBack env (backN env k st)

/-- Conditions for one container selection to succeed: the environment
fetches and parses, the current entry is a container (navigation) entry, and
its child feed is non-empty. -/
def pushOK (env : OpdsEnv) (st : BrowserSt) : Prop :=
  env.serverUrl ≠ "" ∧ env.fetchOk = true ∧ env.parseOk = true ∧ st.entries ≠ [] ∧
  (selEntry st).kind = EntryKind.CONTAINER ∧ env.books (selEntry st).href ≠ []

/-- Conditions for K nested container selections, each child listing loading
successfully. -/
def ChainOK (env : OpdsEnv) : BrowserSt → Nat → Prop
  | _, 0 => True
  | st, k + 1 => pushOK env st ∧ ChainOK env (doConfirm env st) k

theorem doConfirm_spec (env : OpdsEnv) (st : BrowserSt)
    (hB : st.state = BrowserState.BROWSING) (hP : pushOK env st) :
    doConfirm env st =
      { st with
        state := BrowserState.BROWSING
        navHistory := st.currentPath :: st.navHistory
        currentPath := (selEntry st).href
        entries := env.books (selEntry st).href
        selectorIndex := 0
        statusMessage := "Loading..." } := by
  obtain ⟨hs, hf, hp, hne, hk, hcne⟩ := hP
  simp [doConfirm, opdsStep, opdsLoop, confirmInput, navigateToEntry, fetchFeed,
    hB, hs, hf, hp, hne, hk, hcne]

theorem doConfirm_inv (env : OpdsEnv) (st : BrowserSt) (h : OpdsInv env st) :
    OpdsInv env (doConfirm env st) :=
  opdsLoop_inv env (fun s => s) true confirmInput st default h

theorem doConfirm_browsing (env : OpdsEnv) (st : BrowserSt)
    (hB : st.state = BrowserState.BROWSING) (hP : pushOK env st) :
    (doConfirm env st).state = BrowserState.BROWSING := by
  rw [doConfirm_spec env st hB hP]

theorem doConfirm_normalized (env : OpdsEnv) (st : BrowserSt)
    (hB : st.state = BrowserState.BROWSING) (hP : pushOK env st) :
    { doConfirm env st with selectorIndex := 0, statusMessage := "Loading..." }
      = doConfirm env st := by
  rw [doConfirm_spec env st hB hP]

theorem back_confirm_cancel (env : OpdsEnv) (st : BrowserSt)
    (h : OpdsInv env st) (hB : st.state = BrowserState.BROWSING) (hP : pushOK env st) :
    doBack env (doConfirm env st) =
      { st with selectorIndex := 0, statusMessage := "Loading..." } := by
  obtain ⟨he, hneB, h0, hlt⟩ := h hB
  obtain ⟨hs, hf, hp, hne, hk, hcne⟩ := hP
  have hbne : env.books st.currentPath ≠ [] := he ▸ hneB
  rw [doConfirm_spec env st hB ⟨hs, hf, hp, hne, hk, hcne⟩]
  simp [doBack, opdsStep, opdsLoop, backInput, navigateBack, fetchFeed, hs, hf, hp, hbne]
  cases st
  simp_all

theorem roundTripAux (env : OpdsEnv) (K : Nat) (st : BrowserSt)
    (h : OpdsInv env st) (hB : st.state = BrowserState.BROWSING)
    (hC : ChainOK env st (K + 1)) :
    backN env (K + 1) (confirmN env (K + 1) st) =
      { st with selectorIndex := 0, statusMessage := "Loading..." } := by
  induction K generalizing st with
  | zero =>
      obtain ⟨hP, _⟩ := hC
      exact back_confirm_cancel env st h hB hP
  | succ k ih =>
      obtain ⟨hP, hC2⟩ := hC
      have h2 := doConfirm_inv env st h
      have hB2 := doConfirm_browsing env st hB hP
      calc backN env (k + 2) (confirmN env (k + 2) st)
          = doBack env (backN env (k + 1) (confirmN env (k + 1) (doConfirm env st))) := rfl
        _ = doBack env
              { doConfirm env st with selectorIndex := 0, statusMessage := "Loading..." } := by
              rw [ih (doConfirm env st) h2 hB2 hC2]
        _ = doBack env (doConfirm env st) := by rw [doConfirm_normalized env st hB hP]
        _ = { st with selectorIndex := 0, statusMessage := "Loading..." } :=
              back_confirm_cancel env st h hB hP

theorem nextSel_eq (s L : Nat) (hsL : s < L) (hL32 : L ≤ 2147483648) :
    nextSel (s : Int) L = ((s : Int) + 1) % (L : Int) := by
  unfold nextSel SIZE_T_MOD
  have h1 : ((s : Int) + 1) % 4294967296 = (s : Int) + 1 :=
    Int.emod_eq_of_lt (by omega) (by omega)
  rw [h1]

theorem prevSel_eq (s L : Nat) (hsL : s < L) (hL32 : L ≤ 2147483648) :
    prevSel (s : Int) L = ((s : Int) + (L : Int) - 1) % (L : Int) := by
  unfold prevSel SIZE_T_MOD
  have h1 : (s : Int) % 4294967296 = (s : Int) :=
    Int.emod_eq_of_lt (by omega) (by omega)
  rw [h1]
  have h2 : ((s : Int) + (L : Int)) % 4294967296 = (s : Int) + (L : Int) :=
    Int.emod_eq_of_lt (by omega) (by omega)
  rw [h2]
  have h3 : ((s : Int) + (L : Int) - 1) % 4294967296 = (s : Int) + (L : Int) - 1 :=
    Int.emod_eq_of_lt (by omega) (by omega)
  rw [h3]

/-- Concrete container entry used by the witnesses. -/
def contEntry : OpdsEntry :=
  { kind := EntryKind.CONTAINER, title := "News", author := "", href := "/child", hrefXtc := "" }

/-- Concrete leaf (BOOK) entry used by the witnesses. -/
def bookEntry : OpdsEntry :=
  { kind := EntryKind.BOOK, title := "Daily", author := "Ed", href := "/d.epub", hrefXtc := "/d.xtc" }


/-- Concrete browser environment used by the witnesses: the root feed "opds"
holds one container whose child listing holds one book. -/
def demoEnv : OpdsEnv :=
  { wifiOk := true
    serverUrl := "http://calibre"
    fetchOk := true
    parseOk := true
    books := fun p =>
      if p = "opds" then [contEntry] else if p = "/child" then [bookEntry] else [] }

/-- Concrete root Browsing state used by the witnesses. -/
def demoBrowsing : BrowserSt :=
  { state := BrowserState.BROWSING
    currentPath := "opds"
    navHistory := []
    entries := [contEntry]
    selectorIndex := 0
    errorMessage := ""
    statusMessage := "Loading..."
    downloadProgress := 0
    downloadTotal := 0 }

/-- Two-container environment used for C1: the root listing holds two
containers so the selector can sit at index 1. -/
def demoTwoEnv : OpdsEnv :=
  { wifiOk := true
    serverUrl := "http://calibre"
    fetchOk := true
    parseOk := true
    books := fun p =>
      if p = "opds" then [contEntry, contEntry]
      else if p = "/child" then [bookEntry] else [] }

/-- Root Browsing state with the selector on the second container. -/
def demoTwo : BrowserSt :=
  { demoBrowsing with entries := [contEntry, contEntry], selectorIndex := 1 }

/-- Concrete 30-entry Browsing state used by the held-move witness. -/
def demoBig : BrowserSt :=
  { demoBrowsing with entries := List.replicate 30 bookEntry, selectorIndex := 25 }

/-- Concrete child Browsing state (leaf entry selected, one stacked path). -/
def demoChild : BrowserSt :=
  { demoBrowsing with
    currentPath := "/child", navHistory := ["opds"], entries := [bookEntry] }

/-- Down/right press of the news-sync screen (moves the selector forward). -/
def pressNext : Pressed :=
  { up := false, down := true, left := false, right := false, confirm := false, back := false }

/-- Up/left press of the news-sync screen (moves the selector backward). -/
def pressPrev : Pressed :=
  { up := true, down := false, left := false, right := false, confirm := false, back := false }

/-- Concrete three-entry source-selection state used by the witnesses. -/
def demoSelect : NewsSyncSt :=
  { newsInit with
    state := SyncState.SELECT_SOURCE
    entries := [bookEntry, bookEntry, bookEntry]
    selectorIndex := 2 }

/-- Concrete news-sync environment used by the witnesses. -/
def demoNewsEnv : NewsEnv :=
  { wifiOk := true
    serverUrl := "http://calibre"
    newsPath := "/news"
    fetchOk := true
    parseOk := true
    books := [bookEntry] }

/-- C1 (amended): round-trip navigation returns to the original listing
path but at the top of the list: from a Browsing listing satisfying the
machine invariant, selecting container entries K >= 1 times (each child
listing loading successfully) and then pressing back K times returns the
machine to the original listing path with the original entry list reloaded
and the selector reset to 0 — the original selector index is not restored,
because the navigation history stores paths only; pressing back once more
with the history empty exits the screen and performs no fetch. -/
theorem C1_roundtrip_navigation (env : OpdsEnv) (K : Nat) (st : BrowserSt)
    (sanitize : String → String) (dlOk : Bool) (w : World)
    (h : OpdsInv env st) (hB : st.state = BrowserState.BROWSING)
    (hC : ChainOK env st K) (hK : 0 < K) :
    backN env K (confirmN env K st) =
      { st with selectorIndex := 0, statusMessage := "Loading..." } ∧
    (st.navHistory = [] → opdsLoop env sanitize dlOk backInput st w = (st, w, true)) := by
  constructor
  · obtain ⟨k, rfl⟩ : ∃ k, K = k + 1 := ⟨K - 1, by omega⟩
    exact roundTripAux env k st h hB hC
  · intro hnil
    simp [opdsLoop, hB, backInput, navigateBack, hnil]

/-- Counterexample to C1 as stated: with the selector at index 1, one
container selection followed by one back press returns to the original
path, but with the selector reset to 0 rather than restored to 1, so the
machine is not back in the original scroll/selection state. -/
theorem C1_roundtrip_navigation_counterexample :
    demoTwo.selectorIndex = 1 ∧
    (backN demoTwoEnv 1 (confirmN demoTwoEnv 1 demoTwo)).currentPath
        = demoTwo.currentPath ∧
    (backN demoTwoEnv 1 (confirmN demoTwoEnv 1 demoTwo)).selectorIndex = 0 ∧
    backN demoTwoEnv 1 (confirmN demoTwoEnv 1 demoTwo) ≠ demoTwo := by
  decide

/-- Witness for C1 at the two-container root with the selector on index 1. -/
theorem C1_roundtrip_navigation_witness :
    backN demoTwoEnv 1 (confirmN demoTwoEnv 1 demoTwo) =
      { demoTwo with selectorIndex := 0, statusMessage := "Loading..." } ∧
    (demoTwo.navHistory = [] →
      opdsLoop demoTwoEnv (fun x => x) true backInput demoTwo default =
        (demoTwo, default, true)) :=
  C1_roundtrip_navigation demoTwoEnv 1 demoTwo (fun x => x) true default
    (by unfold OpdsInv; decide) rfl ⟨by unfold pushOK; decide, trivial⟩ (by decide)

/-- C3: selecting a leaf (BOOK) entry in Browsing transitions the machine to
Downloading; a successful download invalidates the cache folder for the
downloaded file path (clearCache of the kind matching the file's extension)
and returns the machine to Browsing; a failed download moves it to Error. -/
theorem C3_leaf_download_outcome (env : OpdsEnv) (sanitize : String → String) (dlOk : Bool)
    (st : BrowserSt) (w : World)
    (hB : st.state = BrowserState.BROWSING) (hne : st.entries ≠ [])
    (hkind : (selEntry st).kind = EntryKind.BOOK) :
    opdsLoop env sanitize dlOk confirmInput st w =
      ((downloadBook sanitize dlOk (selEntry st) st w).1,
       (downloadBook sanitize dlOk (selEntry st) st w).2, false) ∧
    downloadBook sanitize dlOk (selEntry st) st w =
      finishDownload dlOk (opdsFilename sanitize (selEntry st)) (opdsCacheKind (selEntry st))
        (startDownload (selEntry st) st) w ∧
    (startDownload (selEntry st) st).state = BrowserState.DOWNLOADING ∧
    (dlOk = true →
      (downloadBook sanitize dlOk (selEntry st) st w).1.state = BrowserState.BROWSING ∧
      (downloadBook sanitize dlOk (selEntry st) st w).2.clearedCaches =
        (opdsFilename sanitize (selEntry st), opdsCacheKind (selEntry st))
          :: w.clearedCaches) ∧
    (dlOk = false →
      (downloadBook sanitize dlOk (selEntry st) st w).1.state = BrowserState.ERROR ∧
      (downloadBook sanitize dlOk (selEntry st) st w).1.errorMessage
          = "Download failed") := by
  refine ⟨?_, rfl, rfl, ?_, ?_⟩
  · simp [opdsLoop, confirmInput, hB, hne, hkind]
  · intro hdl
    simp [downloadBook, finishDownload, startDownload, hdl]
  · intro hdl
    simp [downloadBook, finishDownload, startDownload, hdl]

/-- Witness for C3 at the demo child listing (pre-rendered `.xtc` leaf with
a successful download). -/
theorem C3_leaf_download_outcome_witness :
    opdsLoop demoEnv (fun x => x) true confirmInput demoChild default =
      ((downloadBook (fun x => x) true (selEntry demoChild) demoChild default).1,
       (downloadBook (fun x => x) true (selEntry demoChild) demoChild default).2, false) ∧
    downloadBook (fun x => x) true (selEntry demoChild) demoChild default =
      finishDownload true (opdsFilename (fun x => x) (selEntry demoChild))
        (opdsCacheKind (selEntry demoChild)) (startDownload (selEntry demoChild) demoChild)
        default ∧
    (startDownload (selEntry demoChild) demoChild).state = BrowserState.DOWNLOADING ∧
    (true = true →
      (downloadBook (fun x => x) true (selEntry demoChild) demoChild default).1.state
          = BrowserState.BROWSING ∧
      (downloadBook (fun x => x) true (selEntry demoChild) demoChild default).2.clearedCaches =
        (opdsFilename (fun x => x) (selEntry demoChild), opdsCacheKind (selEntry demoChild))
          :: (default : World).clearedCaches) ∧
    (true = false →
      (downloadBook (fun x => x) true (selEntry demoChild) demoChild default).1.state
          = BrowserState.ERROR ∧
      (downloadBook (fun x => x) true (selEntry demoChild) demoChild default).1.errorMessage
          = "Download failed") :=
  C3_leaf_download_outcome demoEnv (fun x => x) true demoChild default rfl
    (by decide) (by decide)

/-- C4: pressing Confirm in the Error state first re-checks the connectivity
prerequisite: if WiFi is up, the machine goes through Loading and re-executes
the fetch of the unchanged current path with the history intact; otherwise
it launches WiFi selection instead of fetching. -/
theorem C4_error_retry_prerequisite (env : OpdsEnv) (sanitize : String → String)
    (dlOk : Bool) (st : BrowserSt) (w : World) (hE : st.state = BrowserState.ERROR) :
    (env.wifiOk = true →
      opdsLoop env sanitize dlOk confirmInput st w =
        ((fetchFeed env
            { st with state := BrowserState.LOADING, statusMessage := "Loading..." } w).1,
         (fetchFeed env
            { st with state := BrowserState.LOADING, statusMessage := "Loading..." } w).2,
         false) ∧
      ({ st with state := BrowserState.LOADING, statusMessage := "Loading..." }
          : BrowserSt).currentPath = st.currentPath ∧
      (opdsLoop env sanitize dlOk confirmInput st w).1.currentPath = st.currentPath ∧
      (opdsLoop env sanitize dlOk confirmInput st w).1.navHistory = st.navHistory) ∧
    (env.wifiOk = false →
      opdsLoop env sanitize dlOk confirmInput st w =
        ({ st with state := BrowserState.WIFI_SELECTION }, w, false)) := by
  constructor
  · intro hw
    have hred : opdsLoop env sanitize dlOk confirmInput st w =
        ((fetchFeed env
            { st with state := BrowserState.LOADING, statusMessage := "Loading..." } w).1,
         (fetchFeed env
            { st with state := BrowserState.LOADING, statusMessage := "Loading..." } w).2,
         false) := by
      simp [opdsLoop, confirmInput, hE, hw]
    refine ⟨hred, rfl, ?_, ?_⟩
    · rw [hred]
      exact (fetchFeed_frame env _ w).1
    · rw [hred]
      exact (fetchFeed_frame env _ w).2
  · intro hw
    simp [opdsLoop, confirmInput, hE, hw]

/-- Witness for C4 from a concrete Error state with WiFi up. -/
theorem C4_error_retry_prerequisite_witness :
    (demoEnv.wifiOk = true →
      opdsLoop demoEnv (fun x => x) true confirmInput
          { demoChild with state := BrowserState.ERROR } default =
        ((fetchFeed demoEnv
            { { demoChild with state := BrowserState.ERROR } with
                state := BrowserState.LOADING, statusMessage := "Loading..." } default).1,
         (fetchFeed demoEnv
            { { demoChild with state := BrowserState.ERROR } with
                state := BrowserState.LOADING, statusMessage := "Loading..." } default).2,
         false) ∧
      ({ { demoChild with state := BrowserState.ERROR } with
          state := BrowserState.LOADING, statusMessage := "Loading..." }
          : BrowserSt).currentPath
          = ({ demoChild with state := BrowserState.ERROR } : BrowserSt).currentPath ∧
      (opdsLoop demoEnv (fun x => x) true confirmInput
          { demoChild with state := BrowserState.ERROR } default).1.currentPath
          = ({ demoChild with state := BrowserState.ERROR } : BrowserSt).currentPath ∧
      (opdsLoop demoEnv (fun x => x) true confirmInput
          { demoChild with state := BrowserState.ERROR } default).1.navHistory
          = ({ demoChild with state := BrowserState.ERROR } : BrowserSt).navHistory) ∧
    (demoEnv.wifiOk = false →
      opdsLoop demoEnv (fun x => x) true confirmInput
          { demoChild with state := BrowserState.ERROR } default =
        ({ { demoChild with state := BrowserState.ERROR } with
            state := BrowserState.WIFI_SELECTION }, default, false)) :=
  C4_error_retry_prerequisite demoEnv (fun x => x) true
    { demoChild with state := BrowserState.ERROR } default rfl

/-- Browser state right after popping history path `p` with remaining stack
`rest`: previous path made current, `Loading` entered, the listing cleared
and the selector reset to 0. -/
def popTo (st : BrowserSt) (p : String) (rest : List String) : BrowserSt :=
  { st with
    currentPath := p
    navHistory := rest
    state := BrowserState.LOADING
    statusMessage := "Loading..."
    entries := []
    selectorIndex := 0 }

/-- C5: where back is accepted (Browsing, Error, and the cancellable Loading
wait), a back press with an empty history exits the screen with no fetch;
with a non-empty history it pops the most recent path, makes it current
(entering Loading with the listing cleared and the selector reset) and
reloads that listing by fetching its feed. -/
theorem C5_back_semantics (env : OpdsEnv) (sanitize : String → String) (dlOk : Bool)
    (st : BrowserSt) (w : World) (p : String) (rest : List String)
    (hst : st.state = BrowserState.BROWSING ∨ st.state = BrowserState.ERROR ∨
      st.state = BrowserState.LOADING) :
    (st.navHistory = [] →
      opdsLoop env sanitize dlOk backInput st w = (st, w, true)) ∧
    (st.navHistory = p :: rest →
      opdsLoop env sanitize dlOk backInput st w =
        ((fetchFeed env (popTo st p rest) w).1,
         (fetchFeed env (popTo st p rest) w).2, false) ∧
      (popTo st p rest).currentPath = p ∧
      (popTo st p rest).state = BrowserState.LOADING ∧
      (popTo st p rest).navHistory = rest ∧
      (env.serverUrl ≠ "" →
        (opdsLoop env sanitize dlOk backInput st w).2.1.fetches = p :: w.fetches)) := by
  have hback : opdsLoop env sanitize dlOk backInput st w = navigateBack env st w := by
    rcases hst with hB | hB | hB <;> simp [opdsLoop, backInput, hB]
  constructor
  · intro hnil
    rw [hback]
    simp [navigateBack, hnil]
  · intro hcons
    have hred : opdsLoop env sanitize dlOk backInput st w =
        ((fetchFeed env (popTo st p rest) w).1,
         (fetchFeed env (popTo st p rest) w).2, false) := by
      rw [hback]
      simp [navigateBack, hcons, popTo]
    refine ⟨hred, rfl, rfl, rfl, fun hsu => ?_⟩
    rw [hred]
    simp only [fetchFeed]
    split_ifs <;> simp_all [popTo]

/-- Witness for C5 from the demo child listing: back pops to the root path
and refetches it. -/
theorem C5_back_semantics_witness :
    (demoChild.navHistory = [] →
      opdsLoop demoEnv (fun x => x) true backInput demoChild default =
        (demoChild, default, true)) ∧
    (demoChild.navHistory = "opds" :: [] →
      opdsLoop demoEnv (fun x => x) true backInput demoChild default =
        ((fetchFeed demoEnv (popTo demoChild "opds" []) default).1,
         (fetchFeed demoEnv (popTo demoChild "opds" []) default).2, false) ∧
      (popTo demoChild "opds" []).currentPath = "opds" ∧
      (popTo demoChild "opds" []).state = BrowserState.LOADING ∧
      (popTo demoChild "opds" []).navHistory = [] ∧
      (demoEnv.serverUrl ≠ "" →
        (opdsLoop demoEnv (fun x => x) true backInput demoChild default).2.1.fetches
          = "opds" :: (default : World).fetches)) :=
  C5_back_semantics demoEnv (fun x => x) true demoChild default "opds" []
    (Or.inl rfl)

/-- C6: single-step selector wrap in both machines: a non-held next input
moves the selector to (s + 1) mod L and a non-held previous input to
(s + L - 1) mod L, in the catalog browser's Browsing state (whose `int`
selector arithmetic stays below the 32-bit unsigned wrap for any list of at
most 2^31 entries) and in the news-sync source selector alike. -/
theorem C6_single_step_wrap (env : OpdsEnv) (sanitize : String → String) (dlOk : Bool)
    (w wn : World) (st : BrowserSt) (L s : Nat) (stn : NewsSyncSt) (M t : Nat)
    (hB : st.state = BrowserState.BROWSING) (hlen : st.entries.length = L)
    (hsel : st.selectorIndex = (s : Int)) (hsL : s < L) (hL32 : L ≤ 2147483648)
    (hN : stn.state = SyncState.SELECT_SOURCE) (hlenN : stn.entries.length = M)
    (hselN : stn.selectorIndex = t) (htM : t < M) :
    (opdsLoop env sanitize dlOk nextInput st w).1.selectorIndex
        = ((s : Int) + 1) % (L : Int) ∧
    (opdsLoop env sanitize dlOk prevInput st w).1.selectorIndex
        = ((s : Int) + (L : Int) - 1) % (L : Int) ∧
    (newsLoop sanitize dlOk pressNext stn wn).1.selectorIndex = (t + 1) % M ∧
    (newsLoop sanitize dlOk pressPrev stn wn).1.selectorIndex = (t + M - 1) % M := by
  have hL : 0 < L := Nat.lt_of_le_of_lt (Nat.zero_le s) hsL
  have hne : st.entries ≠ [] := List.length_pos.mp (hlen ▸ hL)
  have hM : 0 < M := Nat.lt_of_le_of_lt (Nat.zero_le t) htM
  have hneN : stn.entries ≠ [] := List.length_pos.mp (hlenN ▸ hM)
  refine ⟨?_, ?_, ?_, ?_⟩
  · have hred : (opdsLoop env sanitize dlOk nextInput st w).1
        = { st with selectorIndex := nextSel st.selectorIndex st.entries.length } := by
      simp [opdsLoop, hB, nextInput, hne]
    rw [hred]
    show nextSel st.selectorIndex st.entries.length = _
    rw [hsel, hlen]
    exact nextSel_eq s L hsL hL32
  · have hred : (opdsLoop env sanitize dlOk prevInput st w).1
        = { st with selectorIndex := prevSel st.selectorIndex st.entries.length } := by
      simp [opdsLoop, hB, prevInput, hne]
    rw [hred]
    show prevSel st.selectorIndex st.entries.length = _
    rw [hsel, hlen]
    exact prevSel_eq s L hsL hL32
  · simp [newsLoop, hN, pressNext, hneN, hselN, hlenN]
  · simp [newsLoop, hN, pressPrev, hneN, hselN, hlenN]

/-- Witness for C6: wrap on a 30-entry browser listing at index 25 and on a
3-entry news-sync selector at index 2. -/
theorem C6_single_step_wrap_witness :
    (opdsLoop demoEnv (fun x => x) true nextInput demoBig default).1.selectorIndex
        = (((25 : Nat) : Int) + 1) % ((30 : Nat) : Int) ∧
    (opdsLoop demoEnv (fun x => x) true prevInput demoBig default).1.selectorIndex
        = (((25 : Nat) : Int) + ((30 : Nat) : Int) - 1) % ((30 : Nat) : Int) ∧
    (newsLoop (fun x => x) true pressNext demoSelect default).1.selectorIndex
        = (2 + 1) % 3 ∧
    (newsLoop (fun x => x) true pressPrev demoSelect default).1.selectorIndex
        = (2 + 3 - 1) % 3 :=
  C6_single_step_wrap demoEnv (fun x => x) true default default demoBig 30 25 demoSelect 3 2
    rfl (by simp [demoBig, demoBrowsing]) rfl (by decide) (by decide)
    rfl (by decide) rfl (by decide)

/-- C7: every input event processed while either machine is in its
Downloading state changes nothing: state, selector, current path, history,
entry list and world are all left untouched and the screen does not exit. -/
theorem C7_downloading_blocks_input (env : OpdsEnv) (sanitize : String → String)
    (dlOk : Bool) (inp : BrowserInput) (p : Pressed) (st : BrowserSt) (stn : NewsSyncSt)
    (w wn : World) (hO : st.state = BrowserState.DOWNLOADING)
    (hN : stn.state = SyncState.DOWNLOADING) :
    opdsLoop env sanitize dlOk inp st w = (st, w, false) ∧
    newsLoop sanitize dlOk p stn wn = (stn, wn, false) := by
  constructor
  · simp [opdsLoop, hO]
  · simp [newsLoop, hN]

/-- Witness for C7: a back press during a download is ignored by both
machines. -/
theorem C7_downloading_blocks_input_witness :
    opdsLoop demoEnv (fun x => x) true backInput
        { demoBrowsing with state := BrowserState.DOWNLOADING } default =
      ({ demoBrowsing with state := BrowserState.DOWNLOADING }, default, false) ∧
    newsLoop (fun x => x) true
        { up := false, down := false, left := false, right := false, confirm := false,
          back := true }
        { newsInit with state := SyncState.DOWNLOADING } default =
      ({ newsInit with state := SyncState.DOWNLOADING }, default, false) :=
  C7_downloading_blocks_input demoEnv (fun x => x) true backInput
    { up := false, down := false, left := false, right := false, confirm := false,
      back := true }
    { demoBrowsing with state := BrowserState.DOWNLOADING }
    { newsInit with state := SyncState.DOWNLOADING } default default rfl rfl

/-- C8: whenever fetching a listing fails on any path (no server URL, HTTP
fetch failure, parse failure, or an empty entry list) the browser enters the
Error state and the navigation-history stack and the current path are left
unchanged, so the triggering fetch stays re-executable for the same path. -/
theorem C8_fetch_failure_frame (env : OpdsEnv) (st : BrowserSt) (w : World)
    (hfail : env.serverUrl = "" ∨ env.fetchOk = false ∨ env.parseOk = false ∨
      env.books st.currentPath = []) :
    (fetchFeed env st w).1.state = BrowserState.ERROR ∧
    (fetchFeed env st w).1.navHistory = st.navHistory ∧
    (fetchFeed env st w).1.currentPath = st.currentPath := by
  refine ⟨?_, (fetchFeed_frame env st w).2, (fetchFeed_frame env st w).1⟩
  simp only [fetchFeed]
  split_ifs <;> simp_all

/-- Witness for C8: fetching a path with an empty feed errors out and keeps
the stack and the path. -/
theorem C8_fetch_failure_frame_witness :
    (fetchFeed demoEnv { demoBrowsing with currentPath := "/empty" } default).1.state
        = BrowserState.ERROR ∧
    (fetchFeed demoEnv { demoBrowsing with currentPath := "/empty" } default).1.navHistory
        = ({ demoBrowsing with currentPath := "/empty" } : BrowserSt).navHistory ∧
    (fetchFeed demoEnv { demoBrowsing with currentPath := "/empty" } default).1.currentPath
        = ({ demoBrowsing with currentPath := "/empty" } : BrowserSt).currentPath :=
  C8_fetch_failure_frame demoEnv { demoBrowsing with currentPath := "/empty" } default
    (Or.inr (Or.inr (Or.inr (by decide))))

/-- C9: a feed that fetches and parses successfully but is empty sends
either machine to Error ("No entries found" in the browser, "No books in
feed" in the news sync), never to Browsing; and every reachable Browsing
(resp. source-selection) state has a non-empty entry list with the selector
index inside [0, entries.length). -/
theorem C9_browsing_invariant
    (envO : OpdsEnv) (sanitizeO : String → String) (stO : BrowserSt)
    (envN : NewsEnv) (sanitizeN : String → String) (stN : NewsSyncSt)
    (stf : BrowserSt) (stfN : NewsSyncSt) (w wn : World)
    (hO : OpdsReach envO sanitizeO stO)
    (hN : NewsReach envN sanitizeN stN) :
    (envO.serverUrl ≠ "" → envO.fetchOk = true → envO.parseOk = true →
      envO.books stf.currentPath = [] →
      (fetchFeed envO stf w).1.state = BrowserState.ERROR ∧
      (fetchFeed envO stf w).1.errorMessage = "No entries found") ∧
    (envN.serverUrl ≠ "" → envN.newsPath ≠ "" → envN.fetchOk = true → envN.parseOk = true →
      envN.books = [] →
      (startSync envN stfN wn).1.state = SyncState.ERROR ∧
      (startSync envN stfN wn).1.errorMessage = "No books in feed") ∧
    (stO.state = BrowserState.BROWSING →
      stO.entries ≠ [] ∧ 0 ≤ stO.selectorIndex ∧
      stO.selectorIndex < (stO.entries.length : Int)) ∧
    (stN.state = SyncState.SELECT_SOURCE →
      stN.entries ≠ [] ∧ stN.selectorIndex < stN.entries.length) := by
  have hOI := opdsReach_inv envO sanitizeO stO hO
  obtain ⟨hn1, hn2⟩ := newsReach_inv envN sanitizeN stN hN
  refine ⟨?_, ?_, ?_, ?_⟩
  · intro hsu hf hp hempty
    simp [fetchFeed, hsu, hf, hp, hempty]
  · intro hsu hnp hf hp hempty
    simp [startSync, NewsSyncSt.setError, hsu, hnp, hf, hp, hempty]
  · intro hb
    obtain ⟨he, hne, h0, hlt⟩ := hOI hb
    exact ⟨hne, h0, hlt⟩
  · intro hsel
    exact ⟨hn2 hsel, hn1 (hn2 hsel)⟩

/-- Witness for C9 at the states reached right after entering each screen
with WiFi up and a one-entry feed. -/
theorem C9_browsing_invariant_witness :
    (demoEnv.serverUrl ≠ "" → demoEnv.fetchOk = true → demoEnv.parseOk = true →
      demoEnv.books ({ demoBrowsing with currentPath := "/empty" } : BrowserSt).currentPath
          = [] →
      (fetchFeed demoEnv { demoBrowsing with currentPath := "/empty" } default).1.state
          = BrowserState.ERROR ∧
      (fetchFeed demoEnv { demoBrowsing with currentPath := "/empty" } default).1.errorMessage
          = "No entries found") ∧
    (demoNewsEnv.serverUrl ≠ "" → demoNewsEnv.newsPath ≠ "" →
      demoNewsEnv.fetchOk = true → demoNewsEnv.parseOk = true →
      demoNewsEnv.books = [] →
      (startSync demoNewsEnv newsInit default).1.state = SyncState.ERROR ∧
      (startSync demoNewsEnv newsInit default).1.errorMessage = "No books in feed") ∧
    ((opdsCheckWifi demoEnv opdsInit default).1.state = BrowserState.BROWSING →
      (opdsCheckWifi demoEnv opdsInit default).1.entries ≠ [] ∧
      0 ≤ (opdsCheckWifi demoEnv opdsInit default).1.selectorIndex ∧
      (opdsCheckWifi demoEnv opdsInit default).1.selectorIndex
        < ((opdsCheckWifi demoEnv opdsInit default).1.entries.length : Int)) ∧
    ((checkAndConnectWifi demoNewsEnv newsInit default).1.state = SyncState.SELECT_SOURCE →
      (checkAndConnectWifi demoNewsEnv newsInit default).1.entries ≠ [] ∧
      (checkAndConnectWifi demoNewsEnv newsInit default).1.selectorIndex
        < (checkAndConnectWifi demoNewsEnv newsInit default).1.entries.length) :=
  C9_browsing_invariant demoEnv (fun x => x) (opdsCheckWifi demoEnv opdsInit default).1
    demoNewsEnv (fun x => x) (checkAndConnectWifi demoNewsEnv newsInit default).1
    { demoBrowsing with currentPath := "/empty" } newsInit default default
    (OpdsReach.init default) (NewsReach.enter default)

/-- Concrete world already holding the downloaded news file, used by the C10
witness. -/
def demoWorld : World :=
  { files := ["/News/Daily - Ed.xtc"]
    dirs := []
    clearedCaches := []
    downloads := []
    fetches := [] }

/-- C10: if the sanitized destination file for a selected news-sync entry
already exists on storage, downloadEntry performs no network download and no
cache invalidation: it goes straight to Complete with status "Already
downloaded", leaving the files, the cache-invalidation log and the download
log untouched (only the target directory is ensured). -/
theorem C10_news_skip_existing (sanitize : String → String) (dlOk : Bool)
    (entry : OpdsEntry) (st : NewsSyncSt) (w : World)
    (hhref : newsDownloadHref entry ≠ "")
    (hex : newsDestPath sanitize entry ∈ w.files) :
    downloadEntry sanitize dlOk entry st w =
      ({ st with state := SyncState.COMPLETE, statusMessage := "Already downloaded" },
        w.mkdir "/News") ∧
    (w.mkdir "/News").files = w.files ∧
    (w.mkdir "/News").clearedCaches = w.clearedCaches ∧
    (w.mkdir "/News").downloads = w.downloads := by
  have hfiles : (w.mkdir "/News").files = w.files := by
    simp only [World.mkdir]; split_ifs <;> simp
  have hcc : (w.mkdir "/News").clearedCaches = w.clearedCaches := by
    simp only [World.mkdir]; split_ifs <;> simp
  have hdls : (w.mkdir "/News").downloads = w.downloads := by
    simp only [World.mkdir]; split_ifs <;> simp
  refine ⟨?_, hfiles, hcc, hdls⟩
  simp [downloadEntry, hhref, hfiles, hex]

/-- Witness for C10: the demo entry's destination file already exists, so the
download is skipped. -/
theorem C10_news_skip_existing_witness :
    downloadEntry (fun x => x) true bookEntry newsInit demoWorld =
      ({ newsInit with state := SyncState.COMPLETE, statusMessage := "Already downloaded" },
        demoWorld.mkdir "/News") ∧
    (demoWorld.mkdir "/News").files = demoWorld.files ∧
    (demoWorld.mkdir "/News").clearedCaches = demoWorld.clearedCaches ∧
    (demoWorld.mkdir "/News").downloads = demoWorld.downloads :=
  C10_news_skip_existing (fun x => x) true bookEntry newsInit demoWorld
    (by decide) (by decide)
